import Mathlib

/-!
Verification of the sequencer error-translation layer and the
`add_deploy_transaction` RPC method of the pathfinder gateway.

The definitions below are a shallow embedding of
`crates/pathfinder/src/sequencer/error.rs` and
`crates/pathfinder/src/rpc/v02/method/add_deploy_transaction.rs`.
Domain value types (field elements, hashes, addresses) are opaque inputs
and outputs here and are modelled as natural numbers; external collaborator
types that only pass through (reqwest errors, the transport response) are
modelled as opaque records carrying the data the embedded code reads.
-/

/-- Substring helper: `charsPre needle hay` is true when `needle` is a
prefix of `hay` (character lists). -/
def charsPre : List Char → List Char → Bool
  | [], _ => true
  | _ :: _, [] => false
  | a :: as, b :: bs => a == b && charsPre as bs

/-- Substring helper: `charsSub needle hay` is true when `needle` occurs
contiguously inside `hay`. -/
def charsSub : List Char → List Char → Bool
  | needle, [] => needle.isEmpty
  | needle, h :: t => charsPre needle (h :: t) || charsSub needle t

/-- `strContains s pat` embeds Rust `s.contains(pat)`: `pat` occurs as a
contiguous substring of `s` (the empty pattern always matches). -/
def strContains (s pat : String) : Bool :=
  charsSub pat.toList s.toList

/-- Starknet-specific error codes reported by the sequencer
(`StarknetErrorCode` in `sequencer/error.rs`). -/
inductive StarknetErrorCode where
  | BlockNotFound
  | EntryPointNotFound
  | OutOfRangeContractAddress
  | SchemaValidationError
  | TransactionFailed
  | UninitializedContract
  | OutOfRangeBlockHash
  | OutOfRangeTransactionHash
  | MalformedRequest
  | UnsupportedSelectorForFee
  | InvalidContractDefinition
  | NotPermittedContract
  | UndeclaredClass
  | TransactionLimitExceeded
  | InvalidTransactionNonce
  | OutOfRangeFee
  | InvalidTransactionVersion
  | InvalidProgram
  deriving DecidableEq, Repr

/-- The serde `rename` string tag of each `StarknetErrorCode` variant, as
declared by the `#[serde(rename = ...)]` attributes in `sequencer/error.rs`.
This is what `Serialize` emits for each variant. -/
def codeToTag : StarknetErrorCode → String
  | .BlockNotFound => "StarknetErrorCode.BLOCK_NOT_FOUND"
  | .EntryPointNotFound => "StarknetErrorCode.ENTRY_POINT_NOT_FOUND_IN_CONTRACT"
  | .OutOfRangeContractAddress => "StarknetErrorCode.OUT_OF_RANGE_CONTRACT_ADDRESS"
  | .SchemaValidationError => "StarkErrorCode.SCHEMA_VALIDATION_ERROR"
  | .TransactionFailed => "StarknetErrorCode.TRANSACTION_FAILED"
  | .UninitializedContract => "StarknetErrorCode.UNINITIALIZED_CONTRACT"
  | .OutOfRangeBlockHash => "StarknetErrorCode.OUT_OF_RANGE_BLOCK_HASH"
  | .OutOfRangeTransactionHash => "StarknetErrorCode.OUT_OF_RANGE_TRANSACTION_HASH"
  | .MalformedRequest => "StarkErrorCode.MALFORMED_REQUEST"
  | .UnsupportedSelectorForFee => "StarknetErrorCode.UNSUPPORTED_SELECTOR_FOR_FEE"
  | .InvalidContractDefinition => "StarknetErrorCode.INVALID_CONTRACT_DEFINITION"
  | .NotPermittedContract => "StarknetErrorCode.NON_PERMITTED_CONTRACT"
  | .UndeclaredClass => "StarknetErrorCode.UNDECLARED_CLASS"
  | .TransactionLimitExceeded => "StarknetErrorCode.TRANSACTION_LIMIT_EXCEEDED"
  | .InvalidTransactionNonce => "StarknetErrorCode.INVALID_TRANSACTION_NONCE"
  | .OutOfRangeFee => "StarknetErrorCode.OUT_OF_RANGE_FEE"
  | .InvalidTransactionVersion => "StarknetErrorCode.INVALID_TRANSACTION_VERSION"
  | .InvalidProgram => "StarknetErrorCode.INVALID_PROGRAM"

/-- All `StarknetErrorCode` variants, in declaration order. -/
def allCodes : List StarknetErrorCode :=
  [.BlockNotFound, .EntryPointNotFound, .OutOfRangeContractAddress,
   .SchemaValidationError, .TransactionFailed, .UninitializedContract,
   .OutOfRangeBlockHash, .OutOfRangeTransactionHash, .MalformedRequest,
   .UnsupportedSelectorForFee, .InvalidContractDefinition,
   .NotPermittedContract, .UndeclaredClass, .TransactionLimitExceeded,
   .InvalidTransactionNonce, .OutOfRangeFee, .InvalidTransactionVersion,
   .InvalidProgram]

/-- The fixed vocabulary of recognized string tags. -/
def allTags : List String := allCodes.map codeToTag

/-- Embeds serde `Deserialize` for `StarknetErrorCode`: a string tag is
matched against the variant rename tags; an unrecognized tag is a
deserialization failure (`none`), never a default variant. -/
def tagToCode (s : String) : Option StarknetErrorCode :=
  allCodes.find? (fun c => codeToTag c == s)

/-- `StarknetError` from `sequencer/error.rs`: an upstream error code paired
with a free-text message. -/
structure StarknetError where
  code : StarknetErrorCode
  message : String
  deriving DecidableEq, Repr

/-- Opaque model of `reqwest::Error` (external transport error): carried
through the translation untouched, never inspected. -/
structure ReqwestError where
  msg : String
  deriving DecidableEq, Repr

/-- `SequencerError` from `sequencer/error.rs`: the tagged union of an
upstream Starknet error, a transport (reqwest) error, and the
invalid-error-variant decode failure. -/
inductive SequencerError where
  | StarknetError (e : StarknetError)
  | ReqwestError (e : ReqwestError)
  | InvalidStarknetErrorVariant
  deriving DecidableEq, Repr

/-- The RPC error codes of `rpc/v01/types/reply::ErrorCode` used by the
translation in `sequencer/error.rs` (the variants this code emits). -/
inductive RpcErrorCode where
  | InvalidBlockId
  | ContractNotFound
  | InvalidTransactionHash
  | InvalidCallData
  | InvalidMessageSelector
  | ContractError
  | InvalidContractClassHash
  deriving DecidableEq, Repr

/-- The outward `jsonrpsee` error value as produced by
`impl From<SequencerError> for Error`: either the generic
`Error::Call(CallError::Failed(cause))` carrying the original cause, or a
specific RPC error code (via `RpcErrorCode::...into()`). -/
inductive Error where
  | Failed (cause : SequencerError)
  | Code (c : RpcErrorCode)
  deriving DecidableEq, Repr

/-- Embeds `impl From<SequencerError> for Error` in `sequencer/error.rs`,
arm for arm, preserving the source's match-arm order (the guarded
"Block hash" arm is tested before every other Starknet arm, and the guarded
"Block number" arm before the `BlockNotFound` fallthrough). -/
def errorFromSequencerError (se : SequencerError) : Error :=
  match se with
  | .ReqwestError e => .Failed (.ReqwestError e)
  | .InvalidStarknetErrorVariant => .Failed .InvalidStarknetErrorVariant
  | .StarknetError e =>
    if (e.code = .OutOfRangeBlockHash ∨ e.code = .BlockNotFound)
        ∧ strContains e.message "Block hash" = true then
      .Code .InvalidBlockId
    else
      match e.code with
      | .OutOfRangeContractAddress | .UninitializedContract =>
        .Code .ContractNotFound
      | .OutOfRangeTransactionHash => .Code .InvalidTransactionHash
      | .TransactionFailed => .Code .InvalidCallData
      | .TransactionLimitExceeded => .Failed (.StarknetError e)
      | .EntryPointNotFound => .Code .InvalidMessageSelector
      | .BlockNotFound =>
        if strContains e.message "Block number" = true then
          .Code .InvalidBlockId
        else
          .Failed (.StarknetError e)
      | .InvalidContractDefinition => .Code .ContractError
      | .SchemaValidationError | .MalformedRequest
      | .UnsupportedSelectorForFee | .OutOfRangeBlockHash
      | .NotPermittedContract | .InvalidTransactionNonce
      | .OutOfRangeFee | .InvalidTransactionVersion | .InvalidProgram =>
        .Failed (.StarknetError e)
      | .UndeclaredClass => .Code .InvalidContractClassHash

/-- `AddDeployTransactionError` from `add_deploy_transaction.rs`, generated
by `generate_rpc_error_subset!(AddDeployTransactionError: InvalidContractClass)`:
the declared kind plus the universal `Internal(cause)` catch-all. The cause
is either a wrapped `SequencerError` or a local conversion diagnostic. -/
inductive InternalCause where
  | fromSequencer (e : SequencerError)
  | conversionFailure (diag : String)
  deriving DecidableEq, Repr

inductive AddDeployTransactionError where
  | InvalidContractClass
  | Internal (cause : InternalCause)
  deriving DecidableEq, Repr

/-- Embeds `impl From<SequencerError> for AddDeployTransactionError` in
`add_deploy_transaction.rs`: a Starknet error with code `InvalidProgram`
becomes `InvalidContractClass`; everything else becomes `Internal`
wrapping the original cause. -/
def addDeployErrorFromSequencerError (se : SequencerError) : AddDeployTransactionError :=
  match se with
  | .StarknetError e =>
    if e.code = .InvalidProgram then
      .InvalidContractClass
    else
      .Internal (.fromSequencer (.StarknetError e))
  | _ => .Internal (.fromSequencer se)

/-- Modelled from the spec: the external contract-class representation
(`rpc/v02/types::ContractClass`, not under `src/`). Only its `program`
encoding field is relevant to the shown code, as the opaque input of the
fallible conversion into the transport representation. -/
structure ContractClass where
  program : String
  deriving DecidableEq, Repr

/-- Modelled from the spec: the transport contract-definition
representation (`sequencer/request/add_transaction::ContractDefinition`,
not under `src/`), opaque here. -/
structure ContractDefinition where
  program : String
  deriving DecidableEq, Repr

/-- `BroadcastedDeployTransaction` (fields as read by
`add_deploy_transaction`): version, constructor calldata, address salt and
the external contract class. Field elements are opaque and modelled as
naturals. -/
structure BroadcastedDeployTransaction where
  version : Nat
  constructor_calldata : List Nat
  contract_address_salt : Nat
  contract_class : ContractClass
  deriving DecidableEq, Repr

/-- The tagged request payload of `add_deploy_transaction.rs`: a single
`DEPLOY` variant. -/
inductive Transaction where
  | Deploy (tx : BroadcastedDeployTransaction)
  deriving DecidableEq, Repr

/-- `AddDeployTransactionInput`: the deploy transaction plus the optional
pass-through token. -/
structure AddDeployTransactionInput where
  deploy_transaction : Transaction
  token : Option String
  deriving DecidableEq, Repr

/-- Modelled from the spec: the upstream success response of the sequencer
client's `add_deploy_transaction` call (not under `src/`); the orchestrator
reads its `transaction_hash` and `address` fields. -/
structure DeployResponse where
  transaction_hash : Nat
  address : Nat
  deriving DecidableEq, Repr

/-- `AddDeployTransactionOutput`: the transaction hash and contract
address echoed back to the client. -/
structure AddDeployTransactionOutput where
  transaction_hash : Nat
  contract_address : Nat
  deriving DecidableEq, Repr

/-- One outbound call to the upstream sequencer, recording the arguments
passed by the orchestrator. -/
structure SequencerCall where
  version : Nat
  contract_address_salt : Nat
  constructor_calldata : List Nat
  contract_definition : ContractDefinition
  token : Option String
  deriving DecidableEq, Repr

/-- Embeds `add_deploy_transaction` from `add_deploy_transaction.rs`.
The fallible `ContractClass → ContractDefinition` conversion (`try_into`,
defined outside `src/`) and the upstream sequencer client are abstracted
as the function arguments `convert` and `seq`. The result is paired with
the list of upstream calls attempted, so that "no upstream call on
conversion failure" and "exactly one upstream call" are expressible. -/
def add_deploy_transaction
    (convert : ContractClass → Except String ContractDefinition)
    (seq : SequencerCall → Except SequencerError DeployResponse)
    (input : AddDeployTransactionInput) :
    Except AddDeployTransactionError AddDeployTransactionOutput × List SequencerCall :=
  match input.deploy_transaction with
  | .Deploy tx =>
    match convert tx.contract_class with
    | .error e =>
      (.error (.Internal (.conversionFailure
        ("Failed to convert contract definition: " ++ e))), [])
    | .ok contract_definition =>
      let call : SequencerCall :=
        { version := tx.version
          contract_address_salt := tx.contract_address_salt
          constructor_calldata := tx.constructor_calldata
          contract_definition := contract_definition
          token := input.token }
      match seq call with
      | .error se => (.error (addDeployErrorFromSequencerError se), [call])
      | .ok response =>
        (.ok { transaction_hash := response.transaction_hash
               contract_address := response.address }, [call])

/-- The nine upstream codes for which some message maps to a specific
outward kind (all other codes always collapse to the generic failure). -/
def specificCodes : List StarknetErrorCode :=
  [.BlockNotFound, .OutOfRangeBlockHash, .OutOfRangeContractAddress,
   .UninitializedContract, .OutOfRangeTransactionHash, .TransactionFailed,
   .EntryPointNotFound, .InvalidContractDefinition, .UndeclaredClass]

/-- Whether an outward error is one of the specific RPC error kinds, as
opposed to the generic call-failed error. -/
def isSpecificKind : Error → Bool
  | .Code _ => true
  | .Failed _ => false

/-- C1: for code `BlockNotFound`, a message containing "Block hash" yields
`InvalidBlockId` (with no condition on "Block number", which captures that
the "Block hash" arm is evaluated first); a message containing
"Block number" but not "Block hash" also yields `InvalidBlockId`; a message
containing neither yields the generic call-failed error with the original
cause. -/
theorem C1_block_not_found_disambiguation (m : String) :
    (strContains m "Block hash" = true →
      errorFromSequencerError (.StarknetError ⟨.BlockNotFound, m⟩) =
        .Code .InvalidBlockId)
  ∧ (strContains m "Block hash" = false → strContains m "Block number" = true →
      errorFromSequencerError (.StarknetError ⟨.BlockNotFound, m⟩) =
        .Code .InvalidBlockId)
  ∧ (strContains m "Block hash" = false → strContains m "Block number" = false →
      errorFromSequencerError (.StarknetError ⟨.BlockNotFound, m⟩) =
        .Failed (.StarknetError ⟨.BlockNotFound, m⟩)) := by
  refine ⟨fun h => ?_, fun h1 h2 => ?_, fun h1 h2 => ?_⟩
  · simp [errorFromSequencerError, h]
  · simp [errorFromSequencerError, h1, h2]
  · simp [errorFromSequencerError, h1, h2]

/-- Witness for C1 at concrete messages: one containing both substrings
(showing the "Block hash" arm wins), one with only "Block number", and one
with neither. -/
theorem C1_block_not_found_disambiguation_witness :
    errorFromSequencerError
      (.StarknetError ⟨.BlockNotFound, "Block hash, also Block number"⟩) =
      .Code .InvalidBlockId
  ∧ errorFromSequencerError (.StarknetError ⟨.BlockNotFound, "Block number 3"⟩) =
      .Code .InvalidBlockId
  ∧ errorFromSequencerError (.StarknetError ⟨.BlockNotFound, "zzz"⟩) =
      .Failed (.StarknetError ⟨.BlockNotFound, "zzz"⟩) :=
  ⟨(C1_block_not_found_disambiguation "Block hash, also Block number").1 (by decide),
   (C1_block_not_found_disambiguation "Block number 3").2.1 (by decide) (by decide),
   (C1_block_not_found_disambiguation "zzz").2.2 (by decide) (by decide)⟩

/-- C2: the method-scoped conversion yields `InvalidContractClass` exactly
for a Starknet error with code `InvalidProgram` (any message), and
`Internal` wrapping the original cause for every other `SequencerError`. -/
theorem C2_add_deploy_error_conversion :
    (∀ m, addDeployErrorFromSequencerError (.StarknetError ⟨.InvalidProgram, m⟩) =
      .InvalidContractClass)
  ∧ (∀ se : SequencerError, (∀ m, se ≠ .StarknetError ⟨.InvalidProgram, m⟩) →
      addDeployErrorFromSequencerError se = .Internal (.fromSequencer se)) := by
  constructor
  · intro m
    rfl
  · intro se h
    cases se with
    | StarknetError e =>
      obtain ⟨code, m⟩ := e
      cases code
      case InvalidProgram => exact absurd rfl (h m)
      all_goals simp [addDeployErrorFromSequencerError]
    | ReqwestError e => rfl
    | InvalidStarknetErrorVariant => rfl

/-- Witness for C2: the `InvalidProgram` case at a concrete message and a
non-`InvalidProgram` cause (a transport error). -/
theorem C2_add_deploy_error_conversion_witness :
    addDeployErrorFromSequencerError (.StarknetError ⟨.InvalidProgram, "x"⟩) =
      .InvalidContractClass
  ∧ addDeployErrorFromSequencerError (.ReqwestError ⟨"boom"⟩) =
      .Internal (.fromSequencer (.ReqwestError ⟨"boom"⟩)) :=
  ⟨C2_add_deploy_error_conversion.1 "x",
   C2_add_deploy_error_conversion.2 (.ReqwestError ⟨"boom"⟩)
     (fun _ h => SequencerError.noConfusion h)⟩

/-- C3: when the contract-class conversion fails, `add_deploy_transaction`
returns the generic `Internal` error carrying the conversion diagnostic and
attempts no upstream call (the call trace is empty). -/
theorem C3_conversion_failure_no_upstream_call
    (convert : ContractClass → Except String ContractDefinition)
    (seq : SequencerCall → Except SequencerError DeployResponse)
    (tx : BroadcastedDeployTransaction) (token : Option String) (d : String)
    (hc : convert tx.contract_class = .error d) :
    add_deploy_transaction convert seq ⟨.Deploy tx, token⟩ =
      (.error (.Internal (.conversionFailure
        ("Failed to convert contract definition: " ++ d))), []) := by
  simp [add_deploy_transaction, hc]

/-- Witness for C3: a conversion that rejects an empty program encoding, on
a request whose contract-class program is empty. -/
theorem C3_conversion_failure_no_upstream_call_witness :
    add_deploy_transaction
      (fun cc => if cc.program = "" then .error "program empty" else .ok ⟨cc.program⟩)
      (fun _ => .error .InvalidStarknetErrorVariant)
      ⟨.Deploy ⟨0, [], 7, ⟨""⟩⟩, none⟩ =
      (.error (.Internal (.conversionFailure
        ("Failed to convert contract definition: " ++ "program empty"))), []) :=
  C3_conversion_failure_no_upstream_call
    (fun cc => if cc.program = "" then .error "program empty" else .ok ⟨cc.program⟩)
    (fun _ => .error .InvalidStarknetErrorVariant)
    ⟨0, [], 7, ⟨""⟩⟩ none "program empty" rfl

/-- C4: codes `OutOfRangeContractAddress` and `UninitializedContract`
always translate to `ContractNotFound`, independent of the message. -/
theorem C4_contract_not_found (m : String) :
    errorFromSequencerError (.StarknetError ⟨.OutOfRangeContractAddress, m⟩) =
      .Code .ContractNotFound
  ∧ errorFromSequencerError (.StarknetError ⟨.UninitializedContract, m⟩) =
      .Code .ContractNotFound := by
  constructor <;> simp [errorFromSequencerError]

/-- C5 counterexample: the codes mapped (for some message) to specific
outward kinds are nine pairwise-distinct codes, not eight: each of the nine
codes in `specificCodes` translates to a specific outward kind at the
concrete message "Block hash". -/
theorem C5_counterexample_nine_specific_codes :
    specificCodes.Nodup ∧ specificCodes.length = 9
  ∧ (specificCodes.all fun c =>
      isSpecificKind (errorFromSequencerError (.StarknetError ⟨c, "Block hash"⟩))) =
      true := by
  decide

/-- C5 (amended: nine codes, not eight): every upstream code outside the
nine codes with a specific mapping translates, for every message, to the
generic call-failed error carrying the original cause. -/
theorem C5_other_codes_generic (c : StarknetErrorCode) (m : String)
    (h : c ∉ specificCodes) :
    errorFromSequencerError (.StarknetError ⟨c, m⟩) =
      .Failed (.StarknetError ⟨c, m⟩) := by
  cases c <;>
    first
      | exact absurd (by decide) h
      | simp [errorFromSequencerError]

/-- Witness for C5 at a concrete unmapped code and a message that even
contains "Block hash". -/
theorem C5_other_codes_generic_witness :
    errorFromSequencerError (.StarknetError ⟨.MalformedRequest, "Block hash"⟩) =
      .Failed (.StarknetError ⟨.MalformedRequest, "Block hash"⟩) :=
  C5_other_codes_generic .MalformedRequest "Block hash" (by decide)

/-- C6: both non-upstream causes (transport failure, decode failure)
translate to the generic call-failed error carrying the original cause,
never to a specific outward kind. -/
theorem C6_non_upstream_generic :
    (∀ e : ReqwestError,
      errorFromSequencerError (.ReqwestError e) = .Failed (.ReqwestError e))
  ∧ errorFromSequencerError .InvalidStarknetErrorVariant =
      .Failed .InvalidStarknetErrorVariant :=
  ⟨fun _ => rfl, rfl⟩

/-- C7: a string tag outside the fixed vocabulary of rename tags fails
deserialization (`none`); no default or generic code is produced. -/
theorem C7_unknown_tag_rejected (s : String) (h : s ∉ allTags) :
    tagToCode s = none := by
  unfold tagToCode
  cases hf : allCodes.find? (fun c => codeToTag c == s) with
  | none => rfl
  | some c =>
    exfalso
    apply h
    have hpred := List.find?_some hf
    have hmem : c ∈ allCodes := List.mem_of_find?_eq_some hf
    have heq : codeToTag c = s := by simpa using hpred
    exact heq ▸ List.mem_map_of_mem codeToTag hmem

/-- Witness for C7 at a concrete unknown tag. -/
theorem C7_unknown_tag_rejected_witness :
    tagToCode "StarknetErrorCode.UNKNOWN_NEW_CODE" = none :=
  C7_unknown_tag_rejected "StarknetErrorCode.UNKNOWN_NEW_CODE" (by decide)

/-- C8: on upstream success, `add_deploy_transaction` returns `Ok` echoing
the upstream transaction hash and address unmodified (and makes exactly
the one recorded upstream call). -/
theorem C8_success_echoes_response
    (convert : ContractClass → Except String ContractDefinition)
    (seq : SequencerCall → Except SequencerError DeployResponse)
    (tx : BroadcastedDeployTransaction) (token : Option String)
    (cd : ContractDefinition) (resp : DeployResponse)
    (hc : convert tx.contract_class = .ok cd)
    (hs : seq ⟨tx.version, tx.contract_address_salt, tx.constructor_calldata,
               cd, token⟩ = .ok resp) :
    add_deploy_transaction convert seq ⟨.Deploy tx, token⟩ =
      (.ok ⟨resp.transaction_hash, resp.address⟩,
       [⟨tx.version, tx.contract_address_salt, tx.constructor_calldata,
         cd, token⟩]) := by
  simp [add_deploy_transaction, hc, hs]

/-- Witness for C8 at a concrete conversion, sequencer response and
request. -/
theorem C8_success_echoes_response_witness :
    add_deploy_transaction (fun cc => .ok ⟨cc.program⟩)
      (fun _ => .ok ⟨11, 22⟩) ⟨.Deploy ⟨0, [1, 2], 7, ⟨"p"⟩⟩, some "tok"⟩ =
      (.ok ⟨11, 22⟩, [⟨0, 7, [1, 2], ⟨"p"⟩, some "tok"⟩]) :=
  C8_success_echoes_response (fun cc => .ok ⟨cc.program⟩)
    (fun _ => .ok ⟨11, 22⟩) ⟨0, [1, 2], 7, ⟨"p"⟩⟩ (some "tok") ⟨"p"⟩ ⟨11, 22⟩
    rfl rfl

/-- C9: the translation is total and never falls through unclassified: for
every enumerated upstream code and every message it yields exactly one
outward value (it is a Lean function), and that value is either one of the
specific RPC error kinds or the generic call-failed error preserving the
original cause. -/
theorem C9_translation_total (c : StarknetErrorCode) (m : String) :
    (∃ rc, errorFromSequencerError (.StarknetError ⟨c, m⟩) = .Code rc)
  ∨ errorFromSequencerError (.StarknetError ⟨c, m⟩) =
      .Failed (.StarknetError ⟨c, m⟩) := by
  cases hb : strContains m "Block hash" <;>
    cases hn : strContains m "Block number" <;>
      cases c <;> simp [errorFromSequencerError, hb, hn]

/-- C10: the string-tag encoding of `StarknetErrorCode` round-trips:
deserializing the serialization of any code yields that code. -/
theorem C10_tag_round_trip (c : StarknetErrorCode) :
    tagToCode (codeToTag c) = some c := by
  cases c <;> decide
